import Mathlib

/-!
Shallow embedding of `gsheets_db_connector/googlesheets.py`
(class `GoogleSheetsConnector`), together with the collaborator
behaviour it relies on (the spreadsheet client, the pandas/SQL append,
the file read).  Remote state is made explicit: a spreadsheet is a list
of worksheets, the database is an association list of tables, log
messages accumulate in a list.
-/

deriving instance DecidableEq for Except

/-- One data row, as returned by the client `get_all_records`:
a mapping from header-row column name to cell value. -/
abbrev Record : Type := List (String × String)

/-- The raw cell grid of a worksheet, row major, as the client stores it. -/
abbrev Grid : Type := List (List String)

/-- A worksheet: a title (unique within the spreadsheet) and its cell grid. -/
structure Worksheet where
  title : String
  grid : Grid
deriving DecidableEq

/-- The database: an association list from table name to its rows. -/
abbrev Db : Type := List (String × List Record)

/-- The observable state the connector acts on: the remote spreadsheet,
the database connection contents, and the emitted log lines. -/
structure ConnState where
  sheet : List Worksheet
  db : Db
  log : List String
deriving DecidableEq

/-- Error kinds surfaced by the connector methods: worksheet lookup
failure (gspread WorksheetNotFound), a type error from the client
(tuple passed where a string is expected, bad cell label), an index
error from list indexing, an unreadable file, a database failure. -/
inductive Err
  | notFound
  | typeErr
  | indexErr
  | ioErr
  | dbErr
deriving DecidableEq

/-- A fetched cell object as produced by the client range call:
coordinates plus current value (mutable `.value` in the Python client). -/
structure CellObj where
  row : Nat
  col : Nat
  value : String
deriving DecidableEq

/-- Pad a list on the right with a default element up to length `n`. -/
def padTo (l : List α) (n : Nat) (d : α) : List α :=
  l ++ List.replicate (n - l.length) d

/-- Read the cell at 1-based coordinates `(r, c)`; absent cells are empty. -/
def getCell (g : Grid) (r c : Nat) : String :=
  ((List.getD g (r - 1) []).getD (c - 1) "")

/-- Write `v` into a row at 1-based column `c`, extending the row if needed. -/
def setRow (row : List String) (c : Nat) (v : String) : List String :=
  (padTo row c "").set (c - 1) v

/-- Write `v` into the grid at 1-based coordinates `(r, c)`,
extending the grid if needed. -/
def setCell (g : Grid) (r c : Nat) (v : String) : Grid :=
  let g' := padTo g r ([] : List String)
  g'.set (r - 1) (setRow (List.getD g' (r - 1) []) c v)

/-- Models the client `sheet.worksheet(title)` lookup: the first
worksheet whose title matches, if any. -/
def findWorksheet (sheet : List Worksheet) (t : String) : Option Worksheet :=
  sheet.find? (fun ws => ws.title = t)

/-- Replace the first worksheet titled `t` by `ws'` (how a mutation of the
worksheet returned by `sheet.worksheet(t)` is reflected in the sheet). -/
def replaceFirst : List Worksheet → String → Worksheet → List Worksheet
  | [], _, _ => []
  | ws :: rest, t, ws' =>
    if ws.title = t then ws' :: rest else ws :: replaceFirst rest t ws'

/-- Look a table up by name in the database. -/
def lookupTable : Db → String → Option (List Record)
  | [], _ => none
  | (n, rs) :: rest, t => if n = t then some rs else lookupTable rest t

/-- The rows of table `t`, empty when the table does not exist. -/
def tableRows (db : Db) (t : String) : List Record :=
  (lookupTable db t).getD []

/-- The number of rows of table `t`. -/
def rowCount (db : Db) (t : String) : Nat :=
  (tableRows db t).length

/-- Models the pandas `DataFrame.to_sql` call in append mode (create when absent):
append the rows to table `name`, creating the table when absent. -/
def to_sql_append : Db → String → List Record → Db
  | [], t, rows => [(t, rows)]
  | (n, rs) :: rest, t, rows =>
    if n = t then (n, rs ++ rows) :: rest
    else (n, rs) :: to_sql_append rest t rows

/-- Models the client `worksheet.get_all_records()`: the first grid row is
the header row, every further row becomes a header-to-value record. -/
def get_all_records (ws : Worksheet) : List Record :=
  match ws.grid with
  | [] => []
  | header :: rest => rest.map (fun row => header.zip row)

/-- Numeric value of a digit string, as `int()` computes it. -/
def natOfDigits (cs : List Char) : Nat :=
  cs.foldl (fun acc ch => acc * 10 + (ch.toNat - '0'.toNat)) 0

/-- Column number of a letter run in A1 addressing (A=1, ..., Z=26, AA=27). -/
def colOfLetters (cs : List Char) : Nat :=
  cs.foldl (fun acc ch => acc * 26 + (ch.toUpper.toNat - 'A'.toNat + 1)) 0

/-- Models the client `a1_to_rowcol`: split an A1 cell label such as "B2"
into its 1-based (row, column) pair; `none` when the label does not start
with letters followed by digits (the client raises on such labels). -/
def a1_to_rowcol (s : String) : Option (Nat × Nat) :=
  let cs := s.toList
  let letters := cs.takeWhile Char.isAlpha
  let rest := cs.dropWhile Char.isAlpha
  let digits := rest.takeWhile Char.isDigit
  if letters = [] ∨ digits = [] then none
  else some (natOfDigits digits, colOfLetters letters)

/-- The argument the code hands to the client `worksheet.range(...)` call:
either a proper A1 range string, or — as on line 86 of the source — the
tuple of the format literal "%s:%s" with `start_cell` and `end_cell` built by mistaken formatting. -/
inductive RangeArg
  | a1Name (s : String)
  | tupleArg (fmt a b : String)
deriving DecidableEq

/-- Enumerate the cell objects of the rectangle `(r1,c1)..(r2,c2)` in
row-major order, with their current grid values. -/
def rangeCellList (g : Grid) (r1 c1 r2 c2 : Nat) : List CellObj :=
  (List.range' r1 (r2 + 1 - r1)).flatMap (fun r =>
    (List.range' c1 (c2 + 1 - c1)).map (fun c => ⟨r, c, getCell g r c⟩))

/-- Models the client `worksheet.range(arg)`: on a proper A1 range string
it fetches the rectangle of cells; on the tuple argument the client code
(`int()` / regular-expression matching on the name) raises a TypeError. -/
def wsRange (ws : Worksheet) : RangeArg → Except Err (List CellObj)
  | .tupleArg _ _ _ => .error .typeErr
  | .a1Name s =>
    match s.splitOn ":" with
    | [a, b] =>
      match a1_to_rowcol a, a1_to_rowcol b with
      | some (r1, c1), some (r2, c2) => .ok (rangeCellList ws.grid r1 c1 r2 c2)
      | _, _ => .error .typeErr
    | _ => .error .typeErr

/-- The assignment loop of `update_in_range`
(`for i, val in enumerate(cell_values): cell_list[i].value = val`):
each value overwrites the cell at its index; indexing past the end of the
fetched cell list raises an IndexError, and with fewer values than cells
the trailing cells keep their fetched values. -/
def assignLoop : List CellObj → List String → Except Err (List CellObj)
  | cells, [] => .ok cells
  | [], _ :: _ => .error .indexErr
  | cell :: rest, v :: vs =>
    (assignLoop rest vs).map (fun tail => { cell with value := v } :: tail)

/-- Models the client `worksheet.update_cells(cell_list)` batch write-back:
every cell object value is written at its coordinates. -/
def update_cells (g : Grid) (cells : List CellObj) : Grid :=
  cells.foldl (fun g' cell => setCell g' cell.row cell.col cell.value) g

/-- Models the client single-cell read `worksheet.acell(label).value`:
look the worksheet up by title and read the addressed cell. -/
def readCell (sheet : List Worksheet) (w label : String) : Option String :=
  (findWorksheet sheet w).bind (fun ws =>
    (a1_to_rowcol label).map (fun rc => getCell ws.grid rc.1 rc.2))

/-- The file system as the `open(file_path).read()` call sees it: contents per
path, `none` when the file is unreadable (Python raises an IOError kind). -/
abbrev FileSystem : Type := String → Option String

/-- The SQL execution engine behind `Connection.executescript`: runs a
script against the database, `none` models a raised DatabaseError
(e.g. malformed SQL). -/
abbrev SqlEngine : Type := String → Db → Option Db

/-- `create_tables` (source lines 32-39): read the SQL script at
`file_path` in full and execute it against the database connection. -/
def create_tables (fs : FileSystem) (engine : SqlEngine) (file_path : String)
    (st : ConnState) : Except Err ConnState :=
  match fs file_path with
  | none => .error .ioErr
  | some ddl_sql =>
    match engine ddl_sql st.db with
    | none => .error .dbErr
    | some db' => .ok { st with db := db' }

/-- `update_cell` (source lines 41-49):
`self.__sheet.worksheet(worksheet).update_acell(cell, new_value)`. -/
def update_cell (worksheet cell : String) (new_value : String)
    (st : ConnState) : Except Err ConnState :=
  match findWorksheet st.sheet worksheet with
  | none => .error .notFound
  | some ws =>
    match a1_to_rowcol cell with
    | none => .error .typeErr
    | some rc =>
      .ok { st with sheet := replaceFirst st.sheet worksheet
                      { ws with grid := setCell ws.grid rc.1 rc.2 new_value } }

/-- `clear_worksheet` (source lines 51-57):
`self.__sheet.worksheet(worksheet).clear()`. -/
def clear_worksheet (worksheet : String) (st : ConnState) : Except Err ConnState :=
  match findWorksheet st.sheet worksheet with
  | none => .error .notFound
  | some ws =>
    .ok { st with sheet := replaceFirst st.sheet worksheet { ws with grid := [] } }

/-- The records the body of the `extract_data` loop fetches for the list
entry `ws`: the code re-resolves the worksheet by title
(`data = self.__sheet.worksheet(worksheet.title)`), so the records come
from the first worksheet carrying that title. -/
def loopRecords (sheet : List Worksheet) (ws : Worksheet) : List Record :=
  get_all_records ((findWorksheet sheet ws.title).getD ws)

/-- The two log lines one `extract_data` loop iteration emits for `ws`. -/
def extractEntries (sheet : List Worksheet) (ws : Worksheet) : List String :=
  ["Extracting " ++ ws.title,
   toString (loopRecords sheet ws).length ++ " " ++ ws.title ++ " extracted"]

/-- One iteration of the `extract_data` loop over `(db, log)`: log the
title, fetch the records, log the count, and when the record count is
non-zero append them to the same-named table (`if len(df.index):`). -/
def extract_step (sheet : List Worksheet) (s : Db × List String)
    (ws : Worksheet) : Db × List String :=
  let recs := loopRecords sheet ws
  let log' := s.2 ++ extractEntries sheet ws
  if recs.length ≠ 0 then (to_sql_append s.1 ws.title recs, log')
  else (s.1, log')

/-- `extract_data` (source lines 59-77): iterate the worksheet list in
order, appending the records of every non-empty worksheet to the same-named
database table. -/
def extract_data (st : ConnState) : ConnState :=
  let start := (st.db, st.log ++ ["Extracting mappings from Google sheet."])
  let res := st.sheet.foldl (extract_step st.sheet) start
  { st with db := res.1,
            log := res.2 ++ ["Mappings were successfully extracted from google sheets."] }

/-- `update_in_range` (source lines 79-93): the range is requested with
the tuple of the format literal "%s:%s" with `start_cell` and `end_cell` — not a formatted string —
then the assignment loop runs and the cell list is written back via
`update_cells` on a second worksheet lookup. -/
def update_in_range (worksheet start_cell end_cell : String)
    (cell_values : List String) (st : ConnState) : Except Err ConnState :=
  match findWorksheet st.sheet worksheet with
  | none => .error .notFound
  | some ws =>
    match wsRange ws (RangeArg.tupleArg "%s:%s" start_cell end_cell) with
    | .error e => .error e
    | .ok cell_list =>
      match assignLoop cell_list cell_values with
      | .error e => .error e
      | .ok cells' =>
        match findWorksheet st.sheet worksheet with
        | none => .error .notFound
        | some ws2 =>
          .ok { st with sheet := replaceFirst st.sheet worksheet
                          { ws2 with grid := update_cells ws2.grid cells' } }

/-- `create_worksheet` (source lines 95-105): when the title already
exists only an error-level line is logged; otherwise a new empty
worksheet is appended. -/
def create_worksheet (title : String) (st : ConnState) : Except Err ConnState :=
  if title ∈ st.sheet.map Worksheet.title then
    .ok { st with log := st.log ++ ["Worksheet already exists: " ++ title] }
  else
    .ok { st with sheet := st.sheet ++ [{ title := title, grid := [] }],
                  log := st.log ++ ["Creating Worksheet", "Worksheet created"] }

/-! Helper lemmas about the cell grid. -/

theorem length_padTo (l : List α) (n : Nat) (d : α) :
    (padTo l n d).length = max l.length n := by
  simp only [padTo, List.length_append, List.length_replicate]
  omega

theorem getD_set_self (l : List α) (i : Nat) (a d : α) (h : i < l.length) :
    (l.set i a).getD i d = a := by
  induction l generalizing i with
  | nil => simp at h
  | cons x xs ih =>
    cases i with
    | zero => rfl
    | succ n =>
      simp only [List.set_cons_succ, List.getD_cons_succ]
      exact ih n (by simpa using h)

theorem getCell_setCell (g : Grid) (r c : Nat) (v : String)
    (hr : 1 ≤ r) (hc : 1 ≤ c) : getCell (setCell g r c v) r c = v := by
  unfold getCell setCell
  have h1 : r - 1 < (padTo g r ([] : List String)).length := by
    rw [length_padTo]; omega
  rw [getD_set_self _ _ _ _ h1]
  unfold setRow
  have h2 : c - 1 <
      (padTo (List.getD (padTo g r ([] : List String)) (r - 1) []) c "").length := by
    rw [length_padTo]; omega
  exact getD_set_self _ _ _ _ h2

/-! Helper lemmas about worksheet lookup and replacement. -/

theorem findWorksheet_title {sheet : List Worksheet} {t : String} {ws : Worksheet}
    (h : findWorksheet sheet t = some ws) : ws.title = t := by
  simpa using List.find?_some h

theorem findWorksheet_of_mem {sheet : List Worksheet} {ws : Worksheet} {t : String}
    (hmem : ws ∈ sheet) (ht : ws.title = t) :
    ∃ w', findWorksheet sheet t = some w' ∧ w' ∈ sheet ∧ w'.title = t := by
  cases h : findWorksheet sheet t with
  | none =>
    exfalso
    have := List.find?_eq_none.mp h ws hmem
    simp [ht] at this
  | some w' =>
    exact ⟨w', rfl, List.mem_of_find?_eq_some h, findWorksheet_title h⟩

theorem findWorksheet_replaceFirst (sheet : List Worksheet) (t : String)
    (ws ws' : Worksheet) (h : findWorksheet sheet t = some ws)
    (h' : ws'.title = t) :
    findWorksheet (replaceFirst sheet t ws') t = some ws' := by
  induction sheet with
  | nil => simp [findWorksheet] at h
  | cons x xs ih =>
    by_cases hx : x.title = t
    · simp [replaceFirst, hx, findWorksheet, List.find?_cons_of_pos, h']
    · have h2 : findWorksheet xs t = some ws := by
        simpa [findWorksheet, List.find?_cons_of_neg, hx] using h
      simpa [replaceFirst, hx, findWorksheet, List.find?_cons_of_neg] using ih h2

theorem findWorksheet_append (l₁ l₂ : List Worksheet) (wsT : Worksheet)
    (t : String) (h₁ : ∀ ws ∈ l₁, ws.title ≠ t) (ht : wsT.title = t) :
    findWorksheet (l₁ ++ wsT :: l₂) t = some wsT := by
  induction l₁ with
  | nil => simp [findWorksheet, List.find?_cons_of_pos, ht]
  | cons x xs ih =>
    have hx : x.title ≠ t := h₁ x (by simp)
    rw [List.cons_append]
    unfold findWorksheet
    rw [List.find?_cons_of_neg _ (by simpa using hx)]
    exact ih (fun ws hws => h₁ ws (List.mem_cons_of_mem _ hws))

/-! Helper lemmas about the database model. -/

theorem lookupTable_to_sql_self (db : Db) (t : String) (rows : List Record) :
    lookupTable (to_sql_append db t rows) t = some (tableRows db t ++ rows) := by
  induction db with
  | nil => simp [to_sql_append, lookupTable, tableRows]
  | cons e rest ih =>
    obtain ⟨n, rs⟩ := e
    by_cases h : n = t
    · subst h; simp [to_sql_append, lookupTable, tableRows]
    · simp [to_sql_append, lookupTable, h, ih, tableRows]

theorem lookupTable_to_sql_other (db : Db) (s t : String) (rows : List Record)
    (h : s ≠ t) : lookupTable (to_sql_append db s rows) t = lookupTable db t := by
  induction db with
  | nil => simp [to_sql_append, lookupTable, h]
  | cons e rest ih =>
    obtain ⟨n, rs⟩ := e
    by_cases hn : n = s
    · subst hn; simp [to_sql_append, lookupTable, h]
    · simp [to_sql_append, lookupTable, hn, ih]

theorem tableRows_to_sql_isPref (db : Db) (s t : String) (rows : List Record) :
    tableRows db t <+: tableRows (to_sql_append db s rows) t := by
  by_cases h : s = t
  · subst h
    simp only [tableRows, lookupTable_to_sql_self, Option.getD_some]
    exact List.prefix_append _ _
  · simp only [tableRows, lookupTable_to_sql_other _ _ _ _ h]
    exact List.prefix_rfl

/-! Helper lemmas about the `extract_data` fold. -/

theorem extract_data_db_eq (st : ConnState) :
    (extract_data st).db = (st.sheet.foldl (extract_step st.sheet)
      (st.db, st.log ++ ["Extracting mappings from Google sheet."])).1 := rfl

theorem extract_data_log_eq (st : ConnState) :
    (extract_data st).log = (st.sheet.foldl (extract_step st.sheet)
      (st.db, st.log ++ ["Extracting mappings from Google sheet."])).2
      ++ ["Mappings were successfully extracted from google sheets."] := rfl

theorem extract_data_sheet_eq (st : ConnState) :
    (extract_data st).sheet = st.sheet := rfl

theorem extract_fold_log (sheet : List Worksheet) (l : List Worksheet) :
    ∀ s : Db × List String,
      (l.foldl (extract_step sheet) s).2 = s.2 ++ l.flatMap (extractEntries sheet) := by
  induction l with
  | nil => intro s; simp
  | cons ws rest ih =>
    intro s
    rw [List.foldl_cons, ih]
    by_cases hlen : (loopRecords sheet ws).length ≠ 0
    · simp [extract_step, hlen]
    · simp [extract_step, hlen]

theorem extract_fold_frame (sheet : List Worksheet) (t : String)
    (l : List Worksheet) :
    ∀ s : Db × List String,
      (∀ ws ∈ l, ws.title = t → loopRecords sheet ws = []) →
      lookupTable (l.foldl (extract_step sheet) s).1 t = lookupTable s.1 t := by
  induction l with
  | nil => intro s _; rfl
  | cons ws rest ih =>
    intro s h
    rw [List.foldl_cons, ih _ (fun w hw hti => h w (List.mem_cons_of_mem _ hw) hti)]
    by_cases hti : ws.title = t
    · have hnil : loopRecords sheet ws = [] := h ws (List.mem_cons_self _ _) hti
      simp [extract_step, hnil]
    · by_cases hlen : (loopRecords sheet ws).length ≠ 0
      · simp [extract_step, hlen, lookupTable_to_sql_other _ _ _ _ hti]
      · simp [extract_step, hlen]

theorem extract_fold_append (sheet : List Worksheet) (t : String)
    (l₁ l₂ : List Worksheet) (wsT : Worksheet) (ht : wsT.title = t)
    (h₁ : ∀ ws ∈ l₁, ws.title ≠ t) (h₂ : ∀ ws ∈ l₂, ws.title ≠ t)
    (hne : loopRecords sheet wsT ≠ []) (s : Db × List String) :
    lookupTable ((l₁ ++ wsT :: l₂).foldl (extract_step sheet) s).1 t
      = some (tableRows s.1 t ++ loopRecords sheet wsT) := by
  rw [List.foldl_append, List.foldl_cons]
  rw [extract_fold_frame sheet t l₂ _ (fun ws hw hti => absurd hti (h₂ ws hw))]
  have hmid : lookupTable (l₁.foldl (extract_step sheet) s).1 t = lookupTable s.1 t :=
    extract_fold_frame sheet t l₁ s (fun ws hw hti => absurd hti (h₁ ws hw))
  have hlen : (loopRecords sheet wsT).length ≠ 0 := by
    simpa [List.length_eq_zero] using hne
  simp only [extract_step, hlen, if_true, ite_not, if_neg, ht, if_false]
  rw [lookupTable_to_sql_self]
  simp only [tableRows, hmid]

theorem extract_fold_isPref (sheet : List Worksheet) (t : String)
    (l : List Worksheet) :
    ∀ s : Db × List String,
      tableRows s.1 t <+: tableRows (l.foldl (extract_step sheet) s).1 t := by
  induction l with
  | nil => intro s; exact List.prefix_rfl
  | cons ws rest ih =>
    intro s
    rw [List.foldl_cons]
    have hstep : tableRows s.1 t <+: tableRows (extract_step sheet s ws).1 t := by
      by_cases hlen : (loopRecords sheet ws).length ≠ 0
      · simp only [extract_step, hlen, if_true, ite_not, if_neg]
        exact tableRows_to_sql_isPref _ _ _ _
      · simp [extract_step, hlen]
    exact hstep.trans (ih (extract_step sheet s ws))

/-! Concrete states used to instantiate the theorems below. -/

def wsDept : Worksheet := ⟨"Departments", [["id"]]⟩

def stC1 : ConnState := ⟨[wsDept], [("Departments", [[("id", "9")]])], []⟩

def wsEmp : Worksheet := ⟨"Employees", [["id"], ["1"], ["2"], ["3"]]⟩

def stC2 : ConnState := ⟨[wsEmp], [], []⟩

def stC3 : ConnState := ⟨[⟨"Employees", []⟩], [], []⟩

def stC4 : ConnState := ⟨[⟨"Sheet1", [["x", "y"], ["z", "w"]]⟩], [], []⟩

def wsC5 : Worksheet := ⟨"S", []⟩

def stC5 : ConnState := ⟨[wsC5], [], []⟩

def fsC6 : FileSystem := fun p => if p = "schema.sql" then some "CREATE TABLE t" else none

def engC6 : SqlEngine := fun s db => if s = "CREATE TABLE t" then some (("t", []) :: db) else none

def engBad : SqlEngine := fun _ _ => none

def engId : SqlEngine := fun _ db => some db

def stC6 : ConnState := ⟨[], [], []⟩

def wsC7 : Worksheet := ⟨"S", [["a"]]⟩

def stC7 : ConnState := ⟨[wsC7], [], []⟩

def stC8 : ConnState := ⟨[⟨"S", [["x", "y"], ["z", "w"]]⟩], [], []⟩

def fsC9 : FileSystem := fun _ => none

def stC9 : ConnState := ⟨[], [("keep", [[("k", "1")]])], []⟩

/-! The claims. -/

/-- C1: for every worksheet with zero data rows, `extract_data` performs no
database write for that worksheet — the same-named table is neither
created nor appended to (its lookup result is unchanged) — while the
worksheet is still logged. -/
theorem extract_data_skips_empty (st : ConnState) (t : String)
    (h : ∀ ws ∈ st.sheet, ws.title = t → get_all_records ws = []) :
    lookupTable (extract_data st).db t = lookupTable st.db t
    ∧ ∀ ws ∈ st.sheet, ("Extracting " ++ ws.title) ∈ (extract_data st).log := by
  have hloop : ∀ ws ∈ st.sheet, ws.title = t → loopRecords st.sheet ws = [] := by
    intro ws hmem hti
    obtain ⟨w', hf, hmem', ht'⟩ := findWorksheet_of_mem hmem hti
    unfold loopRecords
    rw [hti, hf]
    exact h w' hmem' ht'
  constructor
  · rw [extract_data_db_eq]
    exact extract_fold_frame st.sheet t st.sheet _ hloop
  · intro ws hmem
    rw [extract_data_log_eq, extract_fold_log]
    refine List.mem_append_left _ (List.mem_append_right _ ?_)
    exact List.mem_flatMap.mpr ⟨ws, hmem, by simp [extractEntries]⟩

/-- Witness for C1 at a concrete state: one worksheet "Departments" with a
header row and no data rows, over a database already holding a
"Departments" table. -/
theorem extract_data_skips_empty_witness :
    lookupTable (extract_data stC1).db "Departments" = lookupTable stC1.db "Departments"
    ∧ ∀ ws ∈ stC1.sheet, ("Extracting " ++ ws.title) ∈ (extract_data stC1).log :=
  extract_data_skips_empty stC1 "Departments" (by decide)

/-- C2: for a worksheet with `N ≥ 1` records whose title occurs once in the
spreadsheet, one `extract_data` call appends exactly its `N` records to the
same-named table (creating it when absent), and a repeated call increases
the row count by `N` again — no deduplication. -/
theorem extract_data_appends_records (st : ConnState) (l₁ l₂ : List Worksheet)
    (wsT : Worksheet) (t : String) (N : Nat)
    (hsheet : st.sheet = l₁ ++ wsT :: l₂) (ht : wsT.title = t)
    (h₁ : ∀ ws ∈ l₁, ws.title ≠ t) (h₂ : ∀ ws ∈ l₂, ws.title ≠ t)
    (hN : (get_all_records wsT).length = N) (hpos : 1 ≤ N) :
    tableRows (extract_data st).db t = tableRows st.db t ++ get_all_records wsT
    ∧ rowCount (extract_data st).db t = rowCount st.db t + N
    ∧ lookupTable (extract_data st).db t ≠ none
    ∧ rowCount (extract_data (extract_data st)).db t = rowCount st.db t + 2 * N := by
  have hfindS : findWorksheet (l₁ ++ wsT :: l₂) t = some wsT :=
    findWorksheet_append l₁ l₂ wsT t h₁ ht
  have hloopS : loopRecords (l₁ ++ wsT :: l₂) wsT = get_all_records wsT := by
    unfold loopRecords
    rw [ht, hfindS]
    rfl
  have hneS : loopRecords (l₁ ++ wsT :: l₂) wsT ≠ [] := by
    rw [hloopS]
    intro hc
    rw [hc] at hN
    simp at hN
    omega
  have main : ∀ st' : ConnState, st'.sheet = l₁ ++ wsT :: l₂ →
      lookupTable (extract_data st').db t
        = some (tableRows st'.db t ++ get_all_records wsT) := by
    intro st' hs
    rw [extract_data_db_eq, hs,
      extract_fold_append (l₁ ++ wsT :: l₂) t l₁ l₂ wsT ht h₁ h₂ hneS _, hloopS]
  have k1 := main st hsheet
  have k2 := main (extract_data st) (by rw [extract_data_sheet_eq, hsheet])
  have t1 : tableRows (extract_data st).db t
      = tableRows st.db t ++ get_all_records wsT := by
    unfold tableRows
    rw [k1]
    rfl
  have t2 : tableRows (extract_data (extract_data st)).db t
      = tableRows (extract_data st).db t ++ get_all_records wsT := by
    unfold tableRows
    rw [k2]
    rfl
  refine ⟨t1, ?_, ?_, ?_⟩
  · unfold rowCount
    rw [t1]
    simp [hN]
  · rw [k1]
    simp
  · unfold rowCount
    rw [t2, t1]
    simp only [List.length_append, hN]
    omega

/-- Witness for C2 at a concrete state: one worksheet "Employees" with
three records over an empty database. -/
theorem extract_data_appends_records_witness :
    tableRows (extract_data stC2).db "Employees"
      = tableRows stC2.db "Employees" ++ get_all_records wsEmp
    ∧ rowCount (extract_data stC2).db "Employees" = rowCount stC2.db "Employees" + 3
    ∧ lookupTable (extract_data stC2).db "Employees" ≠ none
    ∧ rowCount (extract_data (extract_data stC2)).db "Employees"
      = rowCount stC2.db "Employees" + 2 * 3 :=
  extract_data_appends_records stC2 [] [] wsEmp "Employees" 3 rfl rfl
    (by simp) (by simp) (by decide) (by decide)

/-- C3: `create_worksheet` on a title that already exists performs no
mutation of the spreadsheet (and none of the database) and raises no
exception; the only observable effect is one log entry. -/
theorem create_worksheet_existing_noop (st : ConnState) (title : String)
    (h : title ∈ st.sheet.map Worksheet.title) :
    create_worksheet title st
      = .ok { st with log := st.log ++ ["Worksheet already exists: " ++ title] } := by
  simp [create_worksheet, h]

/-- Witness for C3 at a concrete state: a spreadsheet already holding a
worksheet "Employees". -/
theorem create_worksheet_existing_noop_witness :
    create_worksheet "Employees" stC3
      = .ok { stC3 with log := stC3.log ++ ["Worksheet already exists: Employees"] } :=
  create_worksheet_existing_noop stC3 "Employees" (by decide)

/-- C4: the claim says `update_in_range` with a values list matching the
cell count of the range reads the range, writes each value positionally and
sends one batch back.  On the code this fails: the range is requested with
the tuple of the format literal "%s:%s" with `start_cell` and `end_cell` instead of a formatted string,
so the client raises a type error before any cell is read or written.
Evaluated here on worksheet "Sheet1" with a 2 by 2 grid and exactly four
values. -/
theorem update_in_range_failing_input :
    update_in_range "Sheet1" "A1" "B2" ["a", "b", "c", "d"] stC4
      = .error .typeErr := by rfl

/-- C5: on an existing worksheet and a well-formed cell label,
`update_cell` succeeds and a read of the same cell returns the written
value. -/
theorem update_cell_then_read (st : ConnState) (w c v : String)
    (ws : Worksheet) (r cc : Nat)
    (hfind : findWorksheet st.sheet w = some ws)
    (hcell : a1_to_rowcol c = some (r, cc)) (hr : 1 ≤ r) (hc : 1 ≤ cc) :
    ∃ st', update_cell w c v st = .ok st'
      ∧ readCell st'.sheet w c = some v := by
  have htitle : ws.title = w := findWorksheet_title hfind
  refine ⟨⟨replaceFirst st.sheet w { ws with grid := setCell ws.grid r cc v },
    st.db, st.log⟩, ?_, ?_⟩
  · simp [update_cell, hfind, hcell]
  · unfold readCell
    dsimp only
    rw [findWorksheet_replaceFirst st.sheet w ws
      { ws with grid := setCell ws.grid r cc v } hfind (by exact htitle), hcell]
    simp [getCell_setCell ws.grid r cc v hr hc]

/-- Witness for C5 at a concrete state: worksheet "S" with an empty grid,
cell label "B2" (row 2, column 2), value "x". -/
theorem update_cell_then_read_witness :
    ∃ st', update_cell "S" "B2" "x" stC5 = .ok st'
      ∧ readCell st'.sheet "S" "B2" = some "x" :=
  update_cell_then_read stC5 "S" "B2" "x" wsC5 2 2 (by decide) (by decide)
    (by decide) (by decide)

/-- C6: `create_tables` reads the script at the given path and executes it
against the database connection; an unreadable file yields the IOError
kind, a failing execution yields the DatabaseError kind, and otherwise it
succeeds with the database the engine produced and raises neither. -/
theorem create_tables_error_kinds (fs : FileSystem) (engine : SqlEngine)
    (p : String) (st : ConnState) :
    (fs p = none → create_tables fs engine p st = .error .ioErr)
    ∧ (∀ s, fs p = some s → engine s st.db = none →
        create_tables fs engine p st = .error .dbErr)
    ∧ (∀ s db', fs p = some s → engine s st.db = some db' →
        create_tables fs engine p st = .ok { st with db := db' }) := by
  refine ⟨fun h => ?_, fun s hs he => ?_, fun s db' hs he => ?_⟩
  · simp [create_tables, h]
  · simp [create_tables, hs, he]
  · simp [create_tables, hs, he]

/-- Witness for C6 at concrete inputs: a missing path gives the IOError
kind, a readable script with a succeeding engine gives success, and the
same script under an engine that rejects every script gives the
DatabaseError kind. -/
theorem create_tables_error_kinds_witness :
    create_tables fsC6 engC6 "missing.sql" stC6 = .error .ioErr
    ∧ create_tables fsC6 engC6 "schema.sql" stC6 = .ok { stC6 with db := [("t", [])] }
    ∧ create_tables fsC6 engBad "schema.sql" stC6 = .error .dbErr :=
  ⟨(create_tables_error_kinds fsC6 engC6 "missing.sql" stC6).1 (by decide),
   (create_tables_error_kinds fsC6 engC6 "schema.sql" stC6).2.2
     "CREATE TABLE t" [("t", [])] (by decide) (by decide),
   (create_tables_error_kinds fsC6 engBad "schema.sql" stC6).2.1
     "CREATE TABLE t" (by decide) rfl⟩

/-- C7: when the worksheet title does not exist both `update_cell` and
`clear_worksheet` fail with the not-found kind; when it exists,
`clear_worksheet` empties the grid of that worksheet while the worksheet stays
present under its title. -/
theorem worksheet_missing_errors_and_clear (st : ConnState) (w c v : String) :
    (findWorksheet st.sheet w = none →
      update_cell w c v st = .error .notFound
      ∧ clear_worksheet w st = .error .notFound)
    ∧ (∀ ws, findWorksheet st.sheet w = some ws →
      clear_worksheet w st
        = .ok { st with sheet := replaceFirst st.sheet w { ws with grid := [] } }
      ∧ findWorksheet (replaceFirst st.sheet w { ws with grid := [] }) w
        = some { ws with grid := [] }) := by
  refine ⟨fun h => ⟨?_, ?_⟩, fun ws h => ⟨?_, ?_⟩⟩
  · simp [update_cell, h]
  · simp [clear_worksheet, h]
  · simp [clear_worksheet, h]
  · have ht1 : ws.title = w := findWorksheet_title h
    exact findWorksheet_replaceFirst st.sheet w ws { ws with grid := [] } h
      (by exact ht1)

/-- Witness for C7 at a concrete state: title "X" is absent, title "S"
is present with a one-cell grid. -/
theorem worksheet_missing_errors_and_clear_witness :
    (update_cell "X" "A1" "v" stC7 = .error .notFound
     ∧ clear_worksheet "X" stC7 = .error .notFound)
    ∧ (clear_worksheet "S" stC7
        = .ok { stC7 with sheet := replaceFirst stC7.sheet "S" { wsC7 with grid := [] } }
     ∧ findWorksheet (replaceFirst stC7.sheet "S" { wsC7 with grid := [] }) "S"
        = some { wsC7 with grid := [] }) :=
  ⟨(worksheet_missing_errors_and_clear stC7 "X" "A1" "v").1 (by decide),
   (worksheet_missing_errors_and_clear stC7 "S" "A1" "v").2 wsC7 (by decide)⟩

/-- C8 counterexample: with worksheet "S" holding a 2 by 2 grid (a 4-cell
range "A1".."B2"), a five-value call fails with the type error raised at
the range fetch — not the index error inside the assignment loop that the
claim predicts — and a one-value call fails the same way instead of
writing the trailing cells back. -/
theorem update_in_range_no_index_error :
    update_in_range "S" "A1" "B2" ["a", "b", "c", "d", "e"] stC8 = .error .typeErr
    ∧ update_in_range "S" "A1" "B2" ["a"] stC8 = .error .typeErr
    ∧ Err.typeErr ≠ Err.indexErr :=
  ⟨rfl, rfl, by decide⟩

/-- C8 (amended): every `update_in_range` call fails before any write-back
is issued — with the not-found kind when the worksheet title is missing
and otherwise with the type error raised by the tuple range argument — for
every length of `cell_values`, leaving the spreadsheet unchanged. -/
theorem update_in_range_always_fails (st : ConnState)
    (w s e : String) (vals : List String) :
    update_in_range w s e vals st = .error .notFound
    ∨ update_in_range w s e vals st = .error .typeErr := by
  cases h : findWorksheet st.sheet w with
  | none =>
    left
    unfold update_in_range
    rw [h]
  | some ws =>
    right
    unfold update_in_range
    rw [h]
    rfl

/-- C9: when the script file is unreadable, `create_tables` fails with the
IOError kind and its result does not depend on the SQL engine at all: the
database connection is never invoked, so the database is unchanged. -/
theorem create_tables_unreadable_no_db (fs : FileSystem) (p : String)
    (st : ConnState) (h : fs p = none) (engine engine' : SqlEngine) :
    create_tables fs engine p st = .error .ioErr
    ∧ create_tables fs engine p st = create_tables fs engine' p st := by
  constructor <;> simp [create_tables, h]

/-- Witness for C9 at a concrete state: an unreadable file system, checked
against two engines with opposite behaviour. -/
theorem create_tables_unreadable_no_db_witness :
    create_tables fsC9 engId "any.sql" stC9 = .error .ioErr
    ∧ create_tables fsC9 engId "any.sql" stC9 = create_tables fsC9 engBad "any.sql" stC9 :=
  create_tables_unreadable_no_db fsC9 "any.sql" stC9 rfl engId engBad

/-- C10: `extract_data` never removes, replaces or modifies an existing
database row: for every table, the rows present before the call are a
prefix of the rows present after it. -/
theorem extract_data_append_only (st : ConnState) (t : String) :
    tableRows st.db t <+: tableRows (extract_data st).db t := by
  rw [extract_data_db_eq]
  exact extract_fold_isPref st.sheet t st.sheet
    (st.db, st.log ++ ["Extracting mappings from Google sheet."])
